import Mathlib

/-!
Shallow embedding of `src/main.py` (MCS Best Practices service): the JSON-like
record model, the lookup engine (`search_items`, `find_by_id`), the record
formatters, the REST endpoint handlers, the tool handlers, the resource
handlers and the authentication middleware, together with theorems settling
the specification claims C1..C10.

Python dictionaries holding JSON data are embedded as association lists from
keys to a `Value` type; `dict.get` with a default becomes a total lookup,
plain subscripting (which can raise `KeyError`) becomes an `Option`-valued
lookup, and every code path that can raise an exception is embedded as an
`Option`/`Except`-valued function where `none`/`error` marks the raised
exception.
-/

namespace MCSBP

/-- JSON-like values stored in the data collections. `pynone` embeds Python's
`None` (producible by `dict.get` without a default). -/
inductive Value where
  | str (s : String)
  | nat (n : Nat)
  | bool (b : Bool)
  | list (vs : List Value)
  | obj (kvs : List (String × Value))
  | pynone

/-- A record (Python dict with string keys) is an association list; the first
binding for a key wins, mirroring dict-key uniqueness. -/
abbrev Item := List (String × Value)

/-- Lookup of a key in a record: `some v` when present, `none` when absent
(Python subscripting would raise `KeyError` there). -/
def getOpt (item : Item) (k : String) : Option Value :=
  (item.find? (fun p => p.1 == k)).map Prod.snd

/-- Embeds `item.get(k, d)`: the stored value when present, else the default. -/
def getD (item : Item) (k : String) (d : Value) : Value :=
  (getOpt item k).getD d

/-- Embeds `item.get(k)` (no default): absent keys give Python `None`. -/
def pyGet (item : Item) (k : String) : Value :=
  (getOpt item k).getD Value.pynone

/-- Embeds `item.get(k) == v` for a string literal `v`: Python equality of
`None` (or a non-string value) with a string is `False`. -/
def fieldEq (item : Item) (k : String) (v : String) : Bool :=
  match getOpt item k with
  | some (.str s) => s == v
  | _ => false

/-- Reads a field the source code uses as a string (for `in`, `.lower()` and
friends); an absent value gives the stated default. The data model types
these fields as strings, so the non-string case is mapped to the default
as well. -/
def strGetD (item : Item) (k : String) (d : String) : String :=
  match getOpt item k with
  | some (.str s) => s
  | _ => d

/-- Python truthiness of `dict.get(k)` results: `None`, empty strings, empty
lists, empty dicts, zero and `False` are falsy. -/
def truthy : Option Value → Bool
  | none => false
  | some (.str s) => !s.isEmpty
  | some (.nat n) => n != 0
  | some (.bool b) => b
  | some (.list vs) => !vs.isEmpty
  | some (.obj kvs) => !kvs.isEmpty
  | some .pynone => false

/-- Python truthiness of an optional string (query parameters typed
`str | None`): `None` and the empty string are falsy. -/
def strTruthy : Option String → Bool
  | none => false
  | some s => !s.isEmpty

/-- Embeds Python's `str.lower()` (character-wise, as on the ASCII data the
service stores). -/
def pyLower (s : String) : String :=
  String.mk (s.data.map Char.toLower)

/-- Embeds Python's `str.upper()`. -/
def pyUpper (s : String) : String :=
  String.mk (s.data.map Char.toUpper)

/-- Embeds `str.replace(a, b)` for a single-character pattern and
replacement, the only form the source uses. -/
def replaceChar (s : String) (a b : Char) : String :=
  String.mk (s.data.map (fun c => if c == a then b else c))

/-- Embeds `str.startswith(pre)`. -/
def pyStartsWith (s pre : String) : Bool :=
  pre.data.isPrefixOf s.data

/-- Checks whether `needle` occurs as a contiguous run inside `hay`. -/
def listIsInfix (needle : List Char) : List Char → Bool
  | [] => needle.isEmpty
  | c :: rest => needle.isPrefixOf (c :: rest) || listIsInfix needle rest

/-- Embeds Python's substring test `needle in hay` on strings. -/
def strContains (hay needle : String) : Bool :=
  listIsInfix needle.data hay.data

/-- Embeds Python `str()` as used by f-string interpolation; total, since
interpolation never raises. Compound values only note their shape (the data
model never feeds them to an f-string). -/
def pyStr : Value → String
  | .str s => s
  | .nat n => toString n
  | .bool b => if b then "True" else "False"
  | .list _ => "<list>"
  | .obj _ => "<dict>"
  | .pynone => "None"

/-- Evaluates an option-valued function across a list, failing when any
element fails (the Lean image of a Python loop whose body may raise). -/
def mapOptM {a b : Type} (f : a → Option b) : List a → Option (List b)
  | [] => some []
  | x :: t => (f x).bind (fun y => (mapOptM f t).map (fun ys => y :: ys))

/-- Embeds Python's `", ".join(v)`: joins a list of strings, iterates a plain string
character by character, and fails (`TypeError`) on anything else, including
a list with a non-string element. -/
def strOfValue : Value → Option String
  | .str s => some s
  | _ => none

/-- See `strOfValue`; `none` is the raised `TypeError`. -/
def commaJoinV : Value → Option String
  | .str s => some (String.intercalate ", " (s.data.map (fun c => c.toString)))
  | .list vs => (mapOptM strOfValue vs).map (String.intercalate ", ")
  | _ => none

/-- Embeds `for x in v`: lists yield elements, strings yield characters,
dicts yield their keys; other values raise `TypeError` (`none`). -/
def iterElems : Value → Option (List Value)
  | .list vs => some vs
  | .str s => some (s.data.map (fun c => Value.str c.toString))
  | .obj kvs => some (kvs.map (fun p => Value.str p.1))
  | _ => none

/-- Embeds uses of a value as a dict (subscripting, `.get`, `.items()`);
non-dict values raise (`none`). -/
def asObj : Value → Option (List (String × Value))
  | .obj kvs => some kvs
  | _ => none

/-! ## Search helper (`search_items` in `src/main.py`) -/

/-- Score contributed by one searched field of a record: 1 when a string
value contains the lowercased query, the number of containing string
elements when the value is a list, and 0 otherwise (including absent
fields, which `item.get(field, "")` maps to the empty string). -/
def fieldScore (item : Item) (ql : String) (field : String) : Nat :=
  match getD item field (Value.str "") with
  | .str s => if strContains (pyLower s) ql then 1 else 0
  | .list vs =>
      (vs.filter (fun v =>
        match v with
        | .str s => strContains (pyLower s) ql
        | _ => false)).length
  | _ => 0

/-- Total score of a record for a lowercased query over a field list. -/
def itemScore (item : Item) (ql : String) (fields : List String) : Nat :=
  (fields.map (fieldScore item ql)).sum

/-- The `(score, item)` pairs the loop in `search_items` accumulates:
records scoring 0 are dropped, original order is kept. -/
def scored_results (items : List Item) (ql : String) (fields : List String) :
    List (Nat × Item) :=
  items.filterMap (fun item =>
    let s := itemScore item ql fields
    if 0 < s then some (s, item) else none)

/-- Ordering used to embed `results.sort(key=lambda x: x[0], reverse=True)`:
scores descending. -/
def scoreGE (a b : Nat × Item) : Prop := b.1 ≤ a.1

instance : DecidableRel scoreGE := fun a b => Nat.decLe b.1 a.1

instance : IsTotal (Nat × Item) scoreGE :=
  ⟨fun a b => (Nat.le_total a.1 b.1).symm.imp (fun h => h) (fun h => h)⟩

instance : IsTrans (Nat × Item) scoreGE :=
  ⟨fun _ _ _ h1 h2 => Nat.le_trans h2 h1⟩

/-- Embeds `search_items(items, query, fields)`. Python's `list.sort` is a
stable sort; `List.insertionSort` with `scoreGE` is stable and sorts by
score descending, and a stable sort by a fixed key is extensionally unique,
so it produces the same list. -/
def search_items (items : List Item) (query : String) (fields : List String) :
    List Item :=
  if query.isEmpty then items.take 10
  else
    ((List.insertionSort scoreGE
        (scored_results items (pyLower query) fields)).take 10).map Prod.snd

/-- Embeds `find_by_id(items, item_id)`: first record whose `id` field equals
the given string, else `None`. -/
def find_by_id : List Item → String → Option Item
  | [], _ => none
  | item :: rest, item_id =>
      if fieldEq item "id" item_id then some item else find_by_id rest item_id

/-! ## Record formatters (full-detail text, used by the MCP layer) -/

/-- Embeds `format_best_practice_full`; `none` is a raised exception
(`KeyError` on `title`/`description`, `TypeError` from the tag join). -/
def format_best_practice_full (item : Item) : Option String := do
  let title ← getOpt item "title"
  let description ← getOpt item "description"
  let tagsStr ← commaJoinV (getD item "tags" (Value.list []))
  pure (String.intercalate "\n" [
    "# " ++ pyStr title,
    "\n**Category**: " ++ pyStr (getD item "category" (Value.str "N/A")),
    "**Difficulty**: " ++ pyStr (getD item "difficulty" (Value.str "N/A")),
    "\n**Description**: " ++ pyStr description,
    "\n**Rationale**: " ++ pyStr (getD item "rationale" (Value.str "")),
    "\n**Good example**: " ++ pyStr (getD item "example_good" (Value.str "")),
    "**Bad example**: " ++ pyStr (getD item "example_bad" (Value.str "")),
    "\n**Tags**: " ++ tagsStr])

/-- Embeds `format_snippet_full`. -/
def format_snippet_full (item : Item) : Option String := do
  let title ← getOpt item "title"
  let tagsStr ← commaJoinV (getD item "tags" (Value.list []))
  pure (String.intercalate "\n" [
    "# " ++ pyStr title,
    "\n**Language**: " ++ pyStr (getD item "language" (Value.str "unknown")),
    "**Use case**: " ++ pyStr (getD item "use_case" (Value.str "")),
    "\n```" ++ pyStr (getD item "language" (Value.str "")) ++ "\n"
      ++ pyStr (getD item "code" (Value.str "")) ++ "\n```",
    "\n**Explanation**: " ++ pyStr (getD item "explanation" (Value.str "")),
    "\n**Tags**: " ++ tagsStr])

/-- A conditionally rendered bullet-list section (`symptoms`, `causes`):
header plus one dashed line per element when the field is truthy, nothing
otherwise. -/
def bulletSection (header : String) (v : Option Value) : Option (List String) :=
  if truthy v then do
    let elems ← iterElems (v.getD Value.pynone)
    pure (header :: elems.map (fun e => "- " ++ pyStr e))
  else pure []

/-- One resolution step: subscripted at `step`, `action` and `details`
(raising on absence or on a non-dict step). -/
def stepEntry (sv : Value) : Option (List String) := do
  let st ← asObj sv
  let n ← getOpt st "step"
  let action ← getOpt st "action"
  let details ← getOpt st "details"
  pure ["\n**Step " ++ pyStr n ++ "**: " ++ pyStr action,
        "  " ++ pyStr details]

/-- The conditionally rendered `steps` section of the troubleshooting
formatter. -/
def stepLines (v : Option Value) : Option (List String) :=
  if truthy v then do
    let elems ← iterElems (v.getD Value.pynone)
    let parts ← mapOptM stepEntry elems
    pure ("\n**Resolution steps**:" :: parts.flatten)
  else pure []

/-- Embeds `format_troubleshooting_full`. -/
def format_troubleshooting_full (item : Item) : Option String := do
  let title ← getOpt item "title"
  let sym ← bulletSection "\n**Symptoms**:" (getOpt item "symptoms")
  let causes ← bulletSection "\n**Possible causes**:" (getOpt item "causes")
  let steps ← stepLines (getOpt item "steps")
  pure (String.intercalate "\n" (("# " ++ pyStr title) :: (sym ++ causes ++ steps)))

/-- Embeds `format_tip_full`. -/
def format_tip_full (item : Item) : Option String := do
  let title ← getOpt item "title"
  let tagsStr ← commaJoinV (getD item "tags" (Value.list []))
  let whyLines :=
    if truthy (getOpt item "why_it_matters") then
      ["\n*Why it matters*: " ++ pyStr (pyGet item "why_it_matters")]
    else []
  pure (String.intercalate "\n"
    ((["# " ++ pyStr title, "\n" ++ pyStr (getD item "tip" (Value.str ""))]
      ++ whyLines) ++ ["\n**Tags**: " ++ tagsStr]))

/-- Lines for one governance zone entry: availability from the truthiness of
`available`, then optional reason and comma-joined requirements. -/
def zoneLines (zone : String) (infoV : Value) : Option (List String) := do
  let info ← asObj infoV
  let avail := if truthy (getOpt info "available") then "Available" else "Not available"
  let reasonLines :=
    if truthy (getOpt info "reason") then
      ["  Reason: " ++ pyStr (pyGet info "reason")]
    else []
  let reqLines ←
    if truthy (getOpt info "requirements") then do
      let r ← commaJoinV (pyGet info "requirements")
      pure ["  Requirements: " ++ r]
    else pure ([] : List String)
  pure (("\n**" ++ pyUpper zone ++ "**: " ++ avail) :: (reasonLines ++ reqLines))

/-- Embeds `format_governance_full`: heading prefers `display_name` over
`feature` (both absent renders Python `None`), then minimum zone with
default "unknown", per-zone sections, and an optional justification block. -/
def format_governance_full (item : Item) : Option String := do
  let zones ← asObj (getD item "zones" (Value.obj []))
  let zoneSecs ← mapOptM (fun p => zoneLines p.1 p.2) zones
  let justLines :=
    if truthy (getOpt item "justification_template") then
      ["\n**Justification template**:\n> " ++ pyStr (pyGet item "justification_template")]
    else []
  pure (String.intercalate "\n" (
    ("# " ++ pyStr (getD item "display_name" (pyGet item "feature")))
    :: ("\n**Minimum zone required**: " ++ pyStr (getD item "minimum_zone" (Value.str "unknown")))
    :: "\n**Availability by zone**:"
    :: (zoneSecs.flatten ++ justLines)))

/-! ## REST endpoint handlers -/

/-- Envelope returned by the list endpoints. -/
structure ListResponse where
  results : List Item
  total : Nat

/-- Search fields of the best-practices list endpoint and tool. -/
def bpFields : List String := ["title", "description", "tags", "rationale"]

/-- Search fields of the snippets list endpoint and tool (the REST endpoint
passes them in a different order than the tool; both are recorded). -/
def snippetFieldsRest : List String := ["title", "description", "tags", "use_case"]

/-- Search fields of the `get_code_snippet` tool. -/
def snippetFieldsTool : List String := ["title", "description", "use_case", "tags"]

/-- Search fields of the troubleshooting list endpoint and tool. -/
def tsFields : List String := ["title", "symptoms", "causes", "tags"]

/-- The category/difficulty filter conjunction of `list_best_practices` and
`search_best_practices` (identical in both). -/
def bp_filtered (data : List Item) (category difficulty : Option String) : List Item :=
  let items :=
    if strTruthy category then
      data.filter (fun i => fieldEq i "category" (category.getD ""))
    else data
  if strTruthy difficulty then
    items.filter (fun i => fieldEq i "difficulty" (difficulty.getD ""))
  else items

/-- The language filter of `list_snippets` and `get_code_snippet`: skipped
for `None`, the empty string and the literal sentinel `"any"`. -/
def snippets_filtered (data : List Item) (language : Option String) : List Item :=
  if strTruthy language && language.getD "" != "any" then
    data.filter (fun i => fieldEq i "language" (language.getD ""))
  else data

/-- The category filter of `list_troubleshooting`. -/
def ts_filtered (data : List Item) (category : Option String) : List Item :=
  if strTruthy category then
    data.filter (fun i => fieldEq i "category" (category.getD ""))
  else data

/-- The category filter of `list_tips`. -/
def tips_filtered (data : List Item) (category : Option String) : List Item :=
  if strTruthy category then
    data.filter (fun i => fieldEq i "category" (category.getD ""))
  else data

/-- Embeds `GET /api/v1/best-practices`. -/
def list_best_practices (data : List Item) (q category difficulty : Option String) :
    ListResponse :=
  let items := bp_filtered data category difficulty
  let items := if strTruthy q then search_items items (q.getD "") bpFields else items
  { results := items.take 10, total := items.length }

/-- Embeds `GET /api/v1/snippets`. -/
def list_snippets (data : List Item) (q language : Option String) : ListResponse :=
  let items := snippets_filtered data language
  let items := if strTruthy q then search_items items (q.getD "") snippetFieldsRest else items
  { results := items.take 10, total := items.length }

/-- Embeds `GET /api/v1/troubleshooting`. -/
def list_troubleshooting (data : List Item) (q category : Option String) : ListResponse :=
  let items := ts_filtered data category
  let items := if strTruthy q then search_items items (q.getD "") tsFields else items
  { results := items.take 10, total := items.length }

/-- Embeds `GET /api/v1/tips`: no search and no cap on `results`. -/
def list_tips (data : List Item) (category : Option String) : ListResponse :=
  let items := tips_filtered data category
  { results := items, total := items.length }

/-- Embeds the three get-by-id endpoints (the error string is the 404
detail). Python tests the found record with `if not item`, so an empty
record is also treated as absent. -/
def http_get_by_id (items : List Item) (id : String) : Except String Item :=
  match find_by_id items id with
  | none => Except.error "Not found"
  | some item => if item.isEmpty then Except.error "Not found" else Except.ok item

/-- Normalization applied to a requested governance feature name: lowercase,
spaces and underscores become hyphens. -/
def normalizeFeature (s : String) : String :=
  replaceChar (replaceChar (pyLower s) ' ' '-') '_' '-'

/-- The first-pass predicate of `GET /api/v1/governance/{feature}`: exact
equality on `feature` or the normalized name as a substring of `feature`,
tested together in one pass. -/
def govFeatureMatch (fl : String) (item : Item) : Bool :=
  fieldEq item "feature" fl || strContains (strGetD item "feature" "") fl

/-- The second-pass predicate: normalized name as a substring of the
lowercased `display_name`. -/
def govDisplayMatch (fl : String) (item : Item) : Bool :=
  strContains (pyLower (strGetD item "display_name" "")) fl

/-- Embeds `GET /api/v1/governance/{feature}` (the error string is the 404
detail). -/
def get_governance (data : List Item) (feature : String) : Except String Item :=
  let fl := normalizeFeature feature
  match data.find? (govFeatureMatch fl) with
  | some item => Except.ok item
  | none =>
      match data.find? (govDisplayMatch fl) with
      | some item => Except.ok item
      | none => Except.error ("No governance info for: " ++ feature)

/-! ## MCP tools -/

/-- Embeds the `search_best_practices` tool; `none` is a raised exception. -/
def search_best_practices (data : List Item) (query : String)
    (category difficulty : Option String) : Option String :=
  let items := bp_filtered data category difficulty
  let results := search_items items query bpFields
  if results.isEmpty then some "No best practices found matching your query."
  else do
    let blocks ← mapOptM (fun p : Nat × Item => do
      let item := p.2
      let title ← getOpt item "title"
      let description ← getOpt item "description"
      let id ← getOpt item "id"
      pure ["\n## " ++ toString p.1 ++ ". " ++ pyStr title,
            "**Description**: " ++ pyStr description,
            "**Rationale**: " ++ pyStr (getD item "rationale" (Value.str "")),
            "*Difficulty: " ++ pyStr (getD item "difficulty" (Value.str "N/A")) ++ "*",
            "Resource URI: bestpractice://" ++ pyStr id]) ((results.take 5).enumFrom 1)
    pure (String.intercalate "\n" blocks.flatten)

/-- Embeds the `get_code_snippet` tool. -/
def get_code_snippet (data : List Item) (query : String) (language : Option String) :
    Option String :=
  let items := snippets_filtered data language
  let results := search_items items query snippetFieldsTool
  if results.isEmpty then some "No code snippets found matching your query."
  else do
    let blocks ← mapOptM (fun item => do
      let title ← getOpt item "title"
      let id ← getOpt item "id"
      pure ["\n## " ++ pyStr title,
            "**Language**: " ++ pyStr (getD item "language" (Value.str "unknown")),
            "**Use case**: " ++ pyStr (getD item "use_case" (Value.str "")),
            "\n```" ++ pyStr (getD item "language" (Value.str "")) ++ "\n"
              ++ pyStr (getD item "code" (Value.str "")) ++ "\n```",
            "\n**Explanation**: " ++ pyStr (getD item "explanation" (Value.str "")),
            "Resource URI: snippet://" ++ pyStr id]) (results.take 3)
    pure (String.intercalate "\n" blocks.flatten)

/-- Embeds the `troubleshoot_issue` tool: formats the top search hit in full
plus up to two related-guide locators. -/
def troubleshoot_issue (data : List Item) (issue : String) : Option String :=
  match search_items data issue tsFields with
  | [] => some "No troubleshooting guides found for this issue."
  | item :: rest => do
      let title ← getOpt item "title"
      let sym ← bulletSection "\n**Symptoms**:" (getOpt item "symptoms")
      let causes ← bulletSection "\n**Possible causes**:" (getOpt item "causes")
      let steps ← stepLines (getOpt item "steps")
      let id ← getOpt item "id"
      let relatedLines ←
        if rest.isEmpty then pure ([] : List String)
        else do
          let rel ← mapOptM (fun other => do
            let t ← getOpt other "title"
            let oid ← getOpt other "id"
            pure ("- " ++ pyStr t ++ " (troubleshooting://" ++ pyStr oid ++ ")"))
            (rest.take 2)
          pure ("\n**Other related guides**:" :: rel)
      pure (String.intercalate "\n"
        ((("# " ++ pyStr title) :: (sym ++ causes ++ steps))
          ++ ["\nResource URI: troubleshooting://" ++ pyStr id] ++ relatedLines))

/-- The filter of `get_tips_for_feature`: the lowercased feature as a
substring of the category, the title, or the space-joined tags (the join
raises on a non-joinable `tags` value, hence the `Option`). -/
def tipMatches (fl : String) (t : Item) : Option Bool := do
  let tagStrs ←
    match getD t "tags" (Value.list []) with
    | .list vs => mapOptM strOfValue vs
    | .str s => some (s.data.map (fun c => c.toString))
    | _ => none
  pure (strContains (pyLower (strGetD t "category" "")) fl
    || strContains (pyLower (strGetD t "title" "")) fl
    || strContains (pyLower (String.intercalate " " tagStrs)) fl)

/-- Embeds the `get_tips_for_feature` tool. -/
def get_tips_for_feature (data : List Item) (feature : String) : Option String := do
  let fl := pyLower feature
  let pairs ← mapOptM (fun t => (tipMatches fl t).map (fun b => (b, t))) data
  let results := (pairs.filter (fun p => p.1)).map Prod.snd
  if results.isEmpty then pure ("No tips found for '" ++ feature ++ "'.")
  else do
    let blocks ← mapOptM (fun item => do
      let title ← getOpt item "title"
      let id ← getOpt item "id"
      let whyLines :=
        if truthy (getOpt item "why_it_matters") then
          ["\n*Why it matters*: " ++ pyStr (pyGet item "why_it_matters")]
        else []
      pure ((["\n## " ++ pyStr title, pyStr (getD item "tip" (Value.str ""))]
        ++ whyLines) ++ ["Resource URI: tip://" ++ pyStr id])) (results.take 5)
    pure (String.intercalate "\n" blocks.flatten)

/-- The single-pass predicate of the `check_governance_zone` tool: substring
match against `feature` or against the lowercased `display_name` (no
separate exact clause). -/
def czMatch (fl : String) (item : Item) : Bool :=
  strContains (strGetD item "feature" "") fl
    || strContains (pyLower (strGetD item "display_name" "")) fl

/-- Embeds the `check_governance_zone` tool. -/
def check_governance_zone (data : List Item) (feature : String) : Option String :=
  let fl := normalizeFeature feature
  match data.find? (czMatch fl) with
  | none => some ("No governance information found for '" ++ feature ++ "'.")
  | some item => do
      let body ← format_governance_full item
      let f ← getOpt item "feature"
      pure (body ++ "\n\nResource URI: governance://" ++ pyStr f)

/-! ## MCP resources -/

/-- Embeds the `bestpractice://{id}` resource; Python renders the record when
`item` is truthy, so an empty record also yields the not-found text. -/
def get_best_practice_resource (data : List Item) (id : String) : Option String :=
  match find_by_id data id with
  | some item =>
      if item.isEmpty then some ("Best practice '" ++ id ++ "' not found.")
      else format_best_practice_full item
  | none => some ("Best practice '" ++ id ++ "' not found.")

/-- Embeds the `snippet://{id}` resource. -/
def get_snippet_resource (data : List Item) (id : String) : Option String :=
  match find_by_id data id with
  | some item =>
      if item.isEmpty then some ("Snippet '" ++ id ++ "' not found.")
      else format_snippet_full item
  | none => some ("Snippet '" ++ id ++ "' not found.")

/-- Embeds the `troubleshooting://{id}` resource. -/
def get_troubleshooting_resource (data : List Item) (id : String) : Option String :=
  match find_by_id data id with
  | some item =>
      if item.isEmpty then some ("Troubleshooting guide '" ++ id ++ "' not found.")
      else format_troubleshooting_full item
  | none => some ("Troubleshooting guide '" ++ id ++ "' not found.")

/-- Embeds the `tip://{id}` resource. -/
def get_tip_resource (data : List Item) (id : String) : Option String :=
  match find_by_id data id with
  | some item =>
      if item.isEmpty then some ("Tip '" ++ id ++ "' not found.")
      else format_tip_full item
  | none => some ("Tip '" ++ id ++ "' not found.")

/-- Embeds the `governance://{feature}` resource: only an exact match on the
normalized `feature` field renders the record; anything else is the
not-found text. -/
def get_governance_resource (data : List Item) (feature : String) : Option String :=
  let fl := normalizeFeature feature
  match data.find? (fun item => fieldEq item "feature" fl) with
  | some item => format_governance_full item
  | none => some ("Governance info for '" ++ feature ++ "' not found.")

/-! ## Authentication middleware -/

/-- An inbound HTTP request as the auth middleware sees it: path, method and
the optional `X-API-Key` header. -/
structure HttpRequest where
  path : String
  method : String
  apiKey : Option String

/-- Outcome of `auth_middleware`: forward to the inner application, or
answer directly with a status code and body (the body of the fixed MCP
liveness probe is abbreviated to its `status` value). -/
inductive AuthDecision where
  | forward
  | respond (status : Nat) (body : String)

/-- Embeds `auth_middleware`: `/health` and all OPTIONS requests are
forwarded without a key check, a GET on an `/mcp` path is answered directly
with the 200 liveness probe, and otherwise a missing, empty or unknown
`X-API-Key` is answered with the fixed 401 body. -/
def auth_middleware (keys : List String) (r : HttpRequest) : AuthDecision :=
  if r.path == "/health" || r.method == "OPTIONS" then .forward
  else if pyStartsWith r.path "/mcp" && r.method == "GET" then
    .respond 200 "ok"
  else
    match r.apiKey with
    | none => .respond 401 "Invalid or missing API key"
    | some k =>
        if k.isEmpty || !keys.contains k then .respond 401 "Invalid or missing API key"
        else .forward

/-! ## Whole-service step function (for the immutability claim) -/

/-- The five in-memory collections (`DATA` in `src/main.py`) as loaded by
`lifespan` at startup. -/
structure Data where
  best_practices : List Item
  snippets : List Item
  troubleshooting : List Item
  tips : List Item
  governance : List Item

/-- One REST, tool or resource call together with its parameters. -/
inductive Req where
  | listBestPractices (q category difficulty : Option String)
  | getBestPractice (id : String)
  | listSnippets (q language : Option String)
  | getSnippet (id : String)
  | listTroubleshooting (q category : Option String)
  | getTroubleshootingById (id : String)
  | listTips (category : Option String)
  | getGovernance (feature : String)
  | searchBestPracticesTool (query : String) (category difficulty : Option String)
  | getCodeSnippetTool (query : String) (language : Option String)
  | troubleshootIssueTool (issue : String)
  | getTipsForFeatureTool (feature : String)
  | checkGovernanceZoneTool (feature : String)
  | bestPracticeResource (id : String)
  | snippetResource (id : String)
  | troubleshootingResource (id : String)
  | tipResource (id : String)
  | governanceResource (feature : String)

/-- A handler's response: a JSON list envelope, a single record, an HTTP
error, formatted text, or a raised exception. -/
inductive Resp where
  | listing (r : ListResponse)
  | record (item : Item)
  | httpError (status : Nat) (detail : String)
  | text (s : String)
  | raised

/-- Lifts a get-by-id result to a response (404 on absence). -/
def respOfExcept : Except String Item → Resp
  | .ok item => .record item
  | .error d => .httpError 404 d

/-- Lifts a tool/resource result to a response (`none` was an exception). -/
def respOfOption : Option String → Resp
  | some s => .text s
  | none => .raised

/-- Executes one call against the data store, returning the response
together with the (per the source, untouched) store. Every handler in
`src/main.py` only reads `DATA`; the state-passing form makes that an
explicit, provable property rather than an assumption. -/
def handle (d : Data) (r : Req) : Resp × Data :=
  match r with
  | .listBestPractices q c diff => (.listing (list_best_practices d.best_practices q c diff), d)
  | .getBestPractice id => (respOfExcept (http_get_by_id d.best_practices id), d)
  | .listSnippets q lang => (.listing (list_snippets d.snippets q lang), d)
  | .getSnippet id => (respOfExcept (http_get_by_id d.snippets id), d)
  | .listTroubleshooting q c => (.listing (list_troubleshooting d.troubleshooting q c), d)
  | .getTroubleshootingById id => (respOfExcept (http_get_by_id d.troubleshooting id), d)
  | .listTips c => (.listing (list_tips d.tips c), d)
  | .getGovernance f => (respOfExcept (get_governance d.governance f), d)
  | .searchBestPracticesTool q c diff => (respOfOption (search_best_practices d.best_practices q c diff), d)
  | .getCodeSnippetTool q lang => (respOfOption (get_code_snippet d.snippets q lang), d)
  | .troubleshootIssueTool issue => (respOfOption (troubleshoot_issue d.troubleshooting issue), d)
  | .getTipsForFeatureTool f => (respOfOption (get_tips_for_feature d.tips f), d)
  | .checkGovernanceZoneTool f => (respOfOption (check_governance_zone d.governance f), d)
  | .bestPracticeResource id => (respOfOption (get_best_practice_resource d.best_practices id), d)
  | .snippetResource id => (respOfOption (get_snippet_resource d.snippets id), d)
  | .troubleshootingResource id => (respOfOption (get_troubleshooting_resource d.troubleshooting id), d)
  | .tipResource id => (respOfOption (get_tip_resource d.tips id), d)
  | .governanceResource f => (respOfOption (get_governance_resource d.governance f), d)

/-- The data store after serving a whole sequence of calls. -/
def runAll (d : Data) (rs : List Req) : Data :=
  rs.foldl (fun s req => (handle s req).2) d

/-! ## Well-formedness of records (the data model of the spec) -/

/-- The value can be fed to Python's `", ".join`: a string or a list of
strings. -/
def joinable : Value → Bool
  | .str _ => true
  | .list vs => vs.all (fun v => (strOfValue v).isSome)
  | _ => false

/-- The optional `tags`-like field is absent or joinable. -/
def joinableOpt : Option Value → Bool
  | none => true
  | some v => joinable v

/-- A field that is iterated when truthy is iterable whenever truthy. -/
def iterableIfTruthy (v : Option Value) : Bool :=
  !truthy v ||
    (match v with
     | some (.str _) => true
     | some (.list _) => true
     | some (.obj _) => true
     | _ => false)

/-- A resolution step carries the three subscripted keys. -/
def stepObjOk : Value → Bool
  | .obj st =>
      (getOpt st "step").isSome && (getOpt st "action").isSome
        && (getOpt st "details").isSome
  | _ => false

/-- The `steps` field, when truthy, is a list of well-formed step dicts. -/
def stepsOk (v : Option Value) : Bool :=
  !truthy v ||
    (match v with
     | some (.list vs) => vs.all stepObjOk
     | _ => false)

/-- A governance zone entry is a dict whose `requirements` field, when
truthy, is joinable. -/
def zoneInfoOk : Value → Bool
  | .obj info =>
      !truthy (getOpt info "requirements") || joinable (pyGet info "requirements")
  | _ => false

/-- The `zones` field is absent or a dict of well-formed zone entries. -/
def zonesOk : Option Value → Bool
  | none => true
  | some (.obj zs) => zs.all (fun p => zoneInfoOk p.2)
  | some _ => false

/-- A best-practice record as the data model describes it: the mandatory
`title` and `description` present, `tags` (like every optional field)
absent or of its documented type. -/
def BPWellFormed (item : Item) : Bool :=
  (getOpt item "title").isSome && (getOpt item "description").isSome
    && joinableOpt (getOpt item "tags")

/-- A snippet record: mandatory `title`, optional joinable `tags`. -/
def SnippetWellFormed (item : Item) : Bool :=
  (getOpt item "title").isSome && joinableOpt (getOpt item "tags")

/-- A troubleshooting record: mandatory `title`; `symptoms`, `causes` and
`steps` absent, empty, or of their documented shapes. -/
def TSWellFormed (item : Item) : Bool :=
  (getOpt item "title").isSome && iterableIfTruthy (getOpt item "symptoms")
    && iterableIfTruthy (getOpt item "causes") && stepsOk (getOpt item "steps")

/-- A tip record: mandatory `title`, optional joinable `tags`. -/
def TipWellFormed (item : Item) : Bool :=
  (getOpt item "title").isSome && joinableOpt (getOpt item "tags")

/-- A governance record: every field optional, `zones` of its documented
shape when present. -/
def GovWellFormed (item : Item) : Bool :=
  zonesOk (getOpt item "zones")

/-- A governance record that only contains `http-connector` as a substring
of its `feature`. -/
def govSub : Item := [("feature", Value.str "http-connector-v2")]

/-- A governance record whose `feature` is exactly `http-connector`. -/
def govExact : Item := [("feature", Value.str "http-connector")]

/-- Eleven best-practice records that all match the query `error`. -/
def elevenBP : List Item :=
  (List.range 11).map (fun i =>
    [("id", Value.str (toString i)), ("title", Value.str "error handling")])

/-! ## Helper lemmas -/

/-- A linear scan returns the element at the first position satisfying the
predicate. -/
theorem find?_first {α} (p : α → Bool) (pre : List α) (it : α) (post : List α)
    (hpre : ∀ x ∈ pre, p x = false) (hit : p it = true) :
    (pre ++ it :: post).find? p = some it := by
  induction pre with
  | nil => simpa using List.find?_cons_of_pos post hit
  | cons a t ih =>
      have ha : ¬(p a = true) := by simp [hpre a (by simp)]
      rw [List.cons_append, List.find?_cons_of_neg _ ha]
      exact ih (fun x hx => hpre x (by simp [hx]))

/-- `find_by_id` is the linear scan for the `id` field. -/
theorem find_by_id_eq_find? (items : List Item) (id : String) :
    find_by_id items id = items.find? (fun i => fieldEq i "id" id) := by
  induction items with
  | nil => rfl
  | cons a t ih =>
      show (if fieldEq a "id" id = true then some a else find_by_id t id)
        = List.find? (fun i => fieldEq i "id" id) (a :: t)
      by_cases h : fieldEq a "id" id = true
      · rw [if_pos h, List.find?_cons_of_pos (p := fun i => fieldEq i "id" id) t h]
      · rw [if_neg h, List.find?_cons_of_neg (p := fun i => fieldEq i "id" id) t h, ih]

/-- Both branches of `search_items` truncate to at most 10 records. -/
theorem search_items_length_le (items : List Item) (query : String)
    (fields : List String) : (search_items items query fields).length ≤ 10 := by
  unfold search_items
  by_cases h : query.isEmpty = true
  · simp [h, List.length_take]
  · simp only [Bool.not_eq_true] at h
    simp [h, List.length_take]

/-- `mapOptM` succeeds when the function succeeds on every element. -/
theorem mapOptM_isSome {a b : Type} (f : a → Option b) (l : List a)
    (h : ∀ x ∈ l, (f x).isSome = true) : (mapOptM f l).isSome = true := by
  induction l with
  | nil => rfl
  | cons x t ih =>
      obtain ⟨y, hy⟩ := Option.isSome_iff_exists.mp (h x (by simp))
      obtain ⟨ys, hys⟩ := Option.isSome_iff_exists.mp (ih (fun z hz => h z (by simp [hz])))
      simp [mapOptM, hy, hys]

/-- The comma join succeeds on joinable values. -/
theorem commaJoinV_isSome (v : Value) (h : joinable v = true) :
    (commaJoinV v).isSome = true := by
  cases v with
  | str s => rfl
  | list vs =>
      have hm : (mapOptM strOfValue vs).isSome = true :=
        mapOptM_isSome _ _ (by simpa [joinable, List.all_eq_true] using h)
      obtain ⟨ss, hss⟩ := Option.isSome_iff_exists.mp hm
      simp [commaJoinV, hss]
  | nat n => simp [joinable] at h
  | bool b => simp [joinable] at h
  | obj kvs => simp [joinable] at h
  | pynone => simp [joinable] at h

/-- The tag join in the formatters succeeds when `tags` is absent or
joinable. -/
theorem tagsJoin_isSome (item : Item) (h : joinableOpt (getOpt item "tags") = true) :
    (commaJoinV (getD item "tags" (Value.list []))).isSome = true := by
  unfold getD
  cases hg : getOpt item "tags" with
  | none => rfl
  | some v =>
      rw [hg] at h
      simp only [Option.getD_some]
      exact commaJoinV_isSome v (by simpa [joinableOpt] using h)

/-- Conditional bullet sections never fail on documented shapes. -/
theorem bulletSection_isSome (header : String) (v : Option Value)
    (h : iterableIfTruthy v = true) : (bulletSection header v).isSome = true := by
  unfold bulletSection
  by_cases ht : truthy v = true
  · rw [if_pos ht]
    rcases v with _ | vv
    · simp [truthy] at ht
    · cases vv with
      | str s => simp [iterElems]
      | list vs => simp [iterElems]
      | obj kvs => simp [iterElems]
      | nat n => simp [iterableIfTruthy, ht] at h
      | bool b => simp [iterableIfTruthy, ht] at h
      | pynone => simp [truthy] at ht
  · rw [if_neg ht]
    rfl

/-- A well-formed step renders. -/
theorem stepEntry_isSome (sv : Value) (h : stepObjOk sv = true) :
    (stepEntry sv).isSome = true := by
  cases sv with
  | obj st =>
      obtain ⟨hn, ha, hd⟩ : (getOpt st "step").isSome = true
          ∧ (getOpt st "action").isSome = true
          ∧ (getOpt st "details").isSome = true := by
        simpa [stepObjOk, Bool.and_eq_true, and_assoc] using h
      obtain ⟨n, hn2⟩ := Option.isSome_iff_exists.mp hn
      obtain ⟨act, ha2⟩ := Option.isSome_iff_exists.mp ha
      obtain ⟨det, hd2⟩ := Option.isSome_iff_exists.mp hd
      simp [stepEntry, asObj, hn2, ha2, hd2]
  | str s => simp [stepObjOk] at h
  | nat n => simp [stepObjOk] at h
  | bool b => simp [stepObjOk] at h
  | list vs => simp [stepObjOk] at h
  | pynone => simp [stepObjOk] at h

/-- The steps section never fails on documented shapes. -/
theorem stepLines_isSome (v : Option Value) (h : stepsOk v = true) :
    (stepLines v).isSome = true := by
  unfold stepLines
  by_cases ht : truthy v = true
  · rw [if_pos ht]
    rcases v with _ | vv
    · simp [truthy] at ht
    · cases vv with
      | list vs =>
          have hall : ∀ x ∈ vs, stepObjOk x = true := by
            simpa [stepsOk, ht, List.all_eq_true] using h
          obtain ⟨parts, hp⟩ := Option.isSome_iff_exists.mp
            (mapOptM_isSome stepEntry vs (fun x hx => stepEntry_isSome x (hall x hx)))
          simp [iterElems, hp]
      | str s => simp [stepsOk, ht] at h
      | nat n => simp [stepsOk, ht] at h
      | bool b => simp [stepsOk, ht] at h
      | obj kvs => simp [stepsOk, ht] at h
      | pynone => simp [truthy] at ht
  · rw [if_neg ht]
    rfl

/-- A well-formed zone entry renders. -/
theorem zoneLines_isSome (zone : String) (infoV : Value) (h : zoneInfoOk infoV = true) :
    (zoneLines zone infoV).isSome = true := by
  cases infoV with
  | obj info =>
      unfold zoneLines
      by_cases ht : truthy (getOpt info "requirements") = true
      · have hj : joinable (pyGet info "requirements") = true := by
          simpa [zoneInfoOk, ht] using h
        obtain ⟨r, hr⟩ := Option.isSome_iff_exists.mp (commaJoinV_isSome _ hj)
        simp [asObj, ht, hr]
      · simp [asObj, ht]
  | str s => simp [zoneInfoOk] at h
  | nat n => simp [zoneInfoOk] at h
  | bool b => simp [zoneInfoOk] at h
  | list vs => simp [zoneInfoOk] at h
  | pynone => simp [zoneInfoOk] at h

/-- The best-practice formatter never fails on documented shapes. -/
theorem format_best_practice_full_isSome (item : Item) (h : BPWellFormed item = true) :
    (format_best_practice_full item).isSome = true := by
  obtain ⟨h1, h2, h3⟩ : (getOpt item "title").isSome = true
      ∧ (getOpt item "description").isSome = true
      ∧ joinableOpt (getOpt item "tags") = true := by
    simpa [BPWellFormed, Bool.and_eq_true, and_assoc] using h
  obtain ⟨t, ht⟩ := Option.isSome_iff_exists.mp h1
  obtain ⟨d, hd⟩ := Option.isSome_iff_exists.mp h2
  obtain ⟨tg, htg⟩ := Option.isSome_iff_exists.mp (tagsJoin_isSome item h3)
  simp [format_best_practice_full, ht, hd, htg]

/-- The snippet formatter never fails on documented shapes. -/
theorem format_snippet_full_isSome (item : Item) (h : SnippetWellFormed item = true) :
    (format_snippet_full item).isSome = true := by
  obtain ⟨h1, h2⟩ : (getOpt item "title").isSome = true
      ∧ joinableOpt (getOpt item "tags") = true := by
    simpa [SnippetWellFormed, Bool.and_eq_true] using h
  obtain ⟨t, ht⟩ := Option.isSome_iff_exists.mp h1
  obtain ⟨tg, htg⟩ := Option.isSome_iff_exists.mp (tagsJoin_isSome item h2)
  simp [format_snippet_full, ht, htg]

/-- The troubleshooting formatter never fails on documented shapes. -/
theorem format_troubleshooting_full_isSome (item : Item) (h : TSWellFormed item = true) :
    (format_troubleshooting_full item).isSome = true := by
  obtain ⟨h1, h2, h3, h4⟩ : (getOpt item "title").isSome = true
      ∧ iterableIfTruthy (getOpt item "symptoms") = true
      ∧ iterableIfTruthy (getOpt item "causes") = true
      ∧ stepsOk (getOpt item "steps") = true := by
    simpa [TSWellFormed, Bool.and_eq_true, and_assoc] using h
  obtain ⟨t, ht⟩ := Option.isSome_iff_exists.mp h1
  obtain ⟨ls1, hs1⟩ := Option.isSome_iff_exists.mp
    (bulletSection_isSome "\n**Symptoms**:" (getOpt item "symptoms") h2)
  obtain ⟨ls2, hs2⟩ := Option.isSome_iff_exists.mp
    (bulletSection_isSome "\n**Possible causes**:" (getOpt item "causes") h3)
  obtain ⟨ls3, hs3⟩ := Option.isSome_iff_exists.mp (stepLines_isSome _ h4)
  simp [format_troubleshooting_full, ht, hs1, hs2, hs3]

/-- The tip formatter never fails on documented shapes. -/
theorem format_tip_full_isSome (item : Item) (h : TipWellFormed item = true) :
    (format_tip_full item).isSome = true := by
  obtain ⟨h1, h2⟩ : (getOpt item "title").isSome = true
      ∧ joinableOpt (getOpt item "tags") = true := by
    simpa [TipWellFormed, Bool.and_eq_true] using h
  obtain ⟨t, ht⟩ := Option.isSome_iff_exists.mp h1
  obtain ⟨tg, htg⟩ := Option.isSome_iff_exists.mp (tagsJoin_isSome item h2)
  simp [format_tip_full, ht, htg]

/-- The governance formatter never fails on documented shapes. -/
theorem format_governance_full_isSome (item : Item) (h : GovWellFormed item = true) :
    (format_governance_full item).isSome = true := by
  unfold GovWellFormed at h
  have hz : ∃ zs, asObj (getD item "zones" (Value.obj [])) = some zs
      ∧ ∀ p ∈ zs, zoneInfoOk p.2 = true := by
    unfold getD
    cases hg : getOpt item "zones" with
    | none => exact ⟨[], rfl, by simp⟩
    | some v =>
        rw [hg] at h
        cases v with
        | obj zs =>
            exact ⟨zs, rfl, by simpa [zonesOk, List.all_eq_true] using h⟩
        | str s => simp [zonesOk] at h
        | nat n => simp [zonesOk] at h
        | bool b => simp [zonesOk] at h
        | list vs => simp [zonesOk] at h
        | pynone => simp [zonesOk] at h
  obtain ⟨zs, hzs, hall⟩ := hz
  obtain ⟨secs, hsecs⟩ := Option.isSome_iff_exists.mp
    (mapOptM_isSome (fun p => zoneLines p.1 p.2) zs
      (fun p hp => zoneLines_isSome p.1 p.2 (hall p hp)))
  simp [format_governance_full, hzs, hsecs]

/-- The scored pairs are exactly the records of positive score, in original
order, tagged with their scores. -/
theorem scored_results_eq (items : List Item) (ql : String) (fields : List String) :
    scored_results items ql fields
      = (items.filter (fun i => 0 < itemScore i ql fields)).map
          (fun i => (itemScore i ql fields, i)) := by
  induction items with
  | nil => rfl
  | cons a t ih =>
      by_cases h : 0 < itemScore a ql fields
      · simp only [scored_results, List.filterMap_cons] at ih ⊢
        rw [List.filter_cons]
        simp [h, ih]
      · simp only [scored_results, List.filterMap_cons] at ih ⊢
        rw [List.filter_cons]
        simp [h, ih]

/-- A member of the scored pairs carries its record's score, which is
positive, and its record belongs to the collection. -/
theorem mem_scored_results {items : List Item} {ql : String} {fields : List String}
    {p : Nat × Item} (h : p ∈ scored_results items ql fields) :
    p.1 = itemScore p.2 ql fields ∧ 0 < p.1 ∧ p.2 ∈ items := by
  rw [scored_results_eq] at h
  obtain ⟨i, hi, hpi⟩ := List.mem_map.mp h
  obtain ⟨him, hsc⟩ := List.mem_filter.mp hi
  cases hpi
  exact ⟨rfl, by simpa using hsc, him⟩

/-- Inserting an element never reorders the others: per-score slices of an
ordered insert agree with consing (stability of one insertion). -/
theorem filter_orderedInsert (s : Nat) (x : Nat × Item) (m : List (Nat × Item)) :
    (List.orderedInsert scoreGE x m).filter (fun p => p.1 == s)
      = (x :: m).filter (fun p => p.1 == s) := by
  induction m with
  | nil => rfl
  | cons y ys ih =>
      show (if scoreGE x y then x :: y :: ys
          else y :: List.orderedInsert scoreGE x ys).filter (fun p => p.1 == s)
        = (x :: y :: ys).filter (fun p => p.1 == s)
      by_cases hr : scoreGE x y
      · rw [if_pos hr]
      · rw [if_neg hr]
        have hxy : x.1 < y.1 := Nat.lt_of_not_le hr
        simp only [List.filter_cons, ih]
        by_cases hx : (x.1 == s) = true
        · have hy : (y.1 == s) = false := by
            have hxs : x.1 = s := by simpa using hx
            have hne : ¬(y.1 = s) := by omega
            simpa using hne
          simp [hx, hy]
        · have hx2 : (x.1 == s) = false := by simpa using hx
          simp [hx2]

/-- Stability of the whole sort: for every score value, the slice of the
sorted list at that score is the corresponding slice of the input, in
input order. -/
theorem filter_insertionSort (s : Nat) (l : List (Nat × Item)) :
    (List.insertionSort scoreGE l).filter (fun p => p.1 == s)
      = l.filter (fun p => p.1 == s) := by
  induction l with
  | nil => rfl
  | cons x xs ih =>
      show (List.orderedInsert scoreGE x
            (List.insertionSort scoreGE xs)).filter (fun p => p.1 == s)
        = (x :: xs).filter (fun p => p.1 == s)
      rw [filter_orderedInsert, List.filter_cons, List.filter_cons, ih]

/-! ## Claim theorems -/

/-- C5: for every collection and every field set, search with an empty query
returns exactly the first `min 10 (number of records)` records in stored
order, with no filtering and no ranking applied. -/
theorem C5_empty_query_first_ten (items : List Item) (fields : List String) :
    search_items items "" fields = items.take 10 ∧
    (search_items items "" fields).length = min 10 items.length := by
  refine ⟨rfl, ?_⟩
  show (items.take 10).length = min 10 items.length
  exact List.length_take 10 items

/-- C8: on the snippets list endpoint and the snippet tool, the filter
`language="any"` gives exactly the same result as no language filter; the
sentinel is never matched as a literal language value. -/
theorem C8_language_any_is_no_filter (data : List Item) (q : Option String)
    (query : String) :
    list_snippets data q (some "any") = list_snippets data q none ∧
    get_code_snippet data query (some "any") = get_code_snippet data query none := by
  have hfilters : snippets_filtered data (some "any") = snippets_filtered data none := by
    simp [snippets_filtered, strTruthy]
  constructor
  · unfold list_snippets
    rw [hfilters]
  · unfold get_code_snippet
    rw [hfilters]

/-- C9: every REST handler, tool call and resource call leaves the five
collections unchanged; repeating a call against the resulting store gives
the same answer, and any sequence of calls ends with the store it began
with. -/
theorem C9_handlers_read_only (d : Data) (r : Req) (rs : List Req) :
    (handle d r).2 = d ∧ handle (handle d r).2 r = handle d r ∧ runAll d rs = d := by
  have hsnd : ∀ (d' : Data) (r' : Req), (handle d' r').2 = d' := by
    intro d' r'; cases r' <;> rfl
  refine ⟨hsnd d r, by rw [hsnd], ?_⟩
  induction rs generalizing d with
  | nil => rfl
  | cons a t ih =>
      show runAll (handle d a).2 t = d
      rw [hsnd, ih]

/-- C7: `find_by_id` returns the first record whose `id` field equals the
given id under exact case-sensitive string equality, and the not-found
sentinel `none` (never an error) when no record matches, including on the
empty collection. -/
theorem C7_find_by_id_first_match (items : List Item) (id : String) :
    find_by_id ([] : List Item) id = none
    ∧ (find_by_id items id = none ↔ ∀ x ∈ items, fieldEq x "id" id = false)
    ∧ (∀ pre it post, items = pre ++ it :: post → fieldEq it "id" id = true →
        (∀ x ∈ pre, fieldEq x "id" id = false) → find_by_id items id = some it)
    ∧ (∀ it, find_by_id items id = some it → it ∈ items ∧ fieldEq it "id" id = true)
    ∧ find_by_id [[("id", Value.str "A")]] "a" = none := by
  refine ⟨rfl, ?_, ?_, ?_, rfl⟩
  · rw [find_by_id_eq_find?]
    simp [List.find?_eq_none]
  · intro pre it post heq hit hpre
    subst heq
    rw [find_by_id_eq_find?]
    exact find?_first _ pre it post hpre hit
  · intro it h
    rw [find_by_id_eq_find?] at h
    exact ⟨List.mem_of_find?_eq_some h,
      List.find?_some (p := fun i => fieldEq i "id" id) h⟩

/-- Witness for C7 at a concrete two-record collection. -/
theorem C7_witness :
    find_by_id [[("id", Value.str "bp-001")], [("id", Value.str "bp-002")]] "bp-002"
      = some [("id", Value.str "bp-002")] :=
  (C7_find_by_id_first_match
      [[("id", Value.str "bp-001")], [("id", Value.str "bp-002")]] "bp-002").2.2.1
    [[("id", Value.str "bp-001")]] [("id", Value.str "bp-002")] []
    rfl (by decide) (by decide)

/-- C4 fails as stated: a GET on the `/mcp` path with no key is answered 200
(the liveness probe, not 401), and an OPTIONS request with no key is
forwarded to the inner application; neither path is the health probe. -/
theorem C4_counterexample :
    auth_middleware [] ⟨"/mcp", "GET", none⟩ = AuthDecision.respond 200 "ok"
    ∧ auth_middleware [] ⟨"/api/v1/tips", "OPTIONS", none⟩ = AuthDecision.forward
    ∧ ¬(("/mcp" : String) = "/health") ∧ ¬(("/api/v1/tips" : String) = "/health") :=
  ⟨rfl, rfl, by decide, by decide⟩

/-- C4 (amended): a request that is not an OPTIONS request, not to the
health probe, and not a GET on an `/mcp` path, whose `X-API-Key` is
missing, empty or not in the allow-list, is answered directly with the
fixed 401 body and never forwarded. -/
theorem C4_amended_auth_401 (keys : List String) (r : HttpRequest)
    (hpath : ¬(r.path = "/health")) (hmeth : ¬(r.method = "OPTIONS"))
    (hmcp : ¬(pyStartsWith r.path "/mcp" = true ∧ r.method = "GET"))
    (hkey : ∀ k, r.apiKey = some k → k.isEmpty = true ∨ keys.contains k = false) :
    auth_middleware keys r = AuthDecision.respond 401 "Invalid or missing API key" := by
  have h1 : (r.path == "/health" || r.method == "OPTIONS") = false := by
    simp [hpath, hmeth]
  have h2 : (pyStartsWith r.path "/mcp" && r.method == "GET") = false := by
    cases hs : pyStartsWith r.path "/mcp" with
    | false => simp
    | true =>
        simp only [Bool.true_and, beq_eq_false_iff_ne, ne_eq]
        intro hgm
        exact hmcp ⟨hs, hgm⟩
  simp only [auth_middleware, h1, h2, Bool.false_eq_true, if_false]
  cases hk : r.apiKey with
  | none => rfl
  | some k =>
      have hcond : (k.isEmpty || !List.contains keys k) = true := by
        rcases hkey k hk with h | h
        · rw [h, Bool.true_or]
        · rw [h, Bool.not_false, Bool.or_true]
      show (if (k.isEmpty || !List.contains keys k) = true
          then AuthDecision.respond 401 "Invalid or missing API key"
          else AuthDecision.forward)
        = AuthDecision.respond 401 "Invalid or missing API key"
      rw [if_pos hcond]

/-- Witness for C4 at a concrete request carrying an unknown key. -/
theorem C4_witness :
    auth_middleware ["good-key"] ⟨"/api/v1/tips", "GET", some "bad"⟩
      = AuthDecision.respond 401 "Invalid or missing API key" :=
  C4_amended_auth_401 ["good-key"] ⟨"/api/v1/tips", "GET", some "bad"⟩
    (by decide) (by decide) (by decide)
    (by intro k h; injection h with h2; subst h2; exact Or.inr (by decide))

/-- C2 fails as stated: with an exact `feature` match present later in the
collection, the lookup returns the earlier record that merely contains the
normalized name as a substring, because exact and substring matches are
tested together in one pass. -/
theorem C2_counterexample :
    get_governance [govSub, govExact] "http-connector" = Except.ok govSub
    ∧ fieldEq govSub "feature" (normalizeFeature "http-connector") = false
    ∧ fieldEq govExact "feature" (normalizeFeature "http-connector") = true :=
  ⟨rfl, by decide, by decide⟩

/-- C2 (amended): the endpoint normalizes the requested name and scans the
collection in two passes: a first pass accepting a record whose `feature`
either equals the normalized name or contains it as a substring (the first
such record wins, exactness carrying no extra priority inside the pass),
then a second pass on `display_name` containment, and a 404 error when both
passes fail. -/
theorem C2_amended_governance_priority (data : List Item) (feature : String) :
    (∀ pre it post, data = pre ++ it :: post →
        govFeatureMatch (normalizeFeature feature) it = true →
        (∀ x ∈ pre, govFeatureMatch (normalizeFeature feature) x = false) →
        get_governance data feature = Except.ok it)
    ∧ ((∀ x ∈ data, govFeatureMatch (normalizeFeature feature) x = false) →
        ∀ pre it post, data = pre ++ it :: post →
        govDisplayMatch (normalizeFeature feature) it = true →
        (∀ x ∈ pre, govDisplayMatch (normalizeFeature feature) x = false) →
        get_governance data feature = Except.ok it)
    ∧ ((∀ x ∈ data, govFeatureMatch (normalizeFeature feature) x = false
          ∧ govDisplayMatch (normalizeFeature feature) x = false) →
        get_governance data feature
          = Except.error ("No governance info for: " ++ feature)) := by
  refine ⟨?_, ?_, ?_⟩
  · intro pre it post heq hit hpre
    subst heq
    simp only [get_governance]
    rw [find?_first _ pre it post hpre hit]
  · intro hnone pre it post heq hit hpre
    subst heq
    simp only [get_governance]
    rw [List.find?_eq_none.mpr (fun x hx => by simp [hnone x hx]),
      find?_first _ pre it post hpre hit]
  · intro hnone
    simp only [get_governance]
    rw [List.find?_eq_none.mpr (fun x hx => by simp [(hnone x hx).1]),
      List.find?_eq_none.mpr (fun x hx => by simp [(hnone x hx).2])]

/-- Witness for C2 at concrete collections exercising the first pass and
the not-found case. -/
theorem C2_witness :
    get_governance [govExact] "http-connector" = Except.ok govExact
    ∧ get_governance [] "nope" = Except.error "No governance info for: nope" :=
  ⟨(C2_amended_governance_priority [govExact] "http-connector").1
      [] govExact [] rfl (by decide) (by simp),
   (C2_amended_governance_priority [] "nope").2.2 (by simp)⟩

/-- C10: the governance resource renders a record only on an exact match of
the normalized name against `feature`: with no exact match anywhere it
returns the not-found text even when a record matches by substring on
`feature` or `display_name` — matches that the REST lookup and the
`check_governance_zone` tool do accept. -/
theorem C10_resource_exact_only (data : List Item) (feature : String) :
    ((∀ x ∈ data, fieldEq x "feature" (normalizeFeature feature) = false) →
        get_governance_resource data feature
          = some ("Governance info for '" ++ feature ++ "' not found."))
    ∧ (∀ pre it post, data = pre ++ it :: post →
        fieldEq it "feature" (normalizeFeature feature) = true →
        (∀ x ∈ pre, fieldEq x "feature" (normalizeFeature feature) = false) →
        get_governance_resource data feature = format_governance_full it)
    ∧ ((∀ x ∈ data, fieldEq x "feature" (normalizeFeature feature) = false) →
        ∀ pre it post, data = pre ++ it :: post →
        govFeatureMatch (normalizeFeature feature) it = true →
        (∀ x ∈ pre, govFeatureMatch (normalizeFeature feature) x = false) →
        get_governance data feature = Except.ok it)
    ∧ (∀ pre it post, data = pre ++ it :: post →
        czMatch (normalizeFeature feature) it = true →
        (∀ x ∈ pre, czMatch (normalizeFeature feature) x = false) →
        check_governance_zone data feature
          = (format_governance_full it).bind (fun body =>
              (getOpt it "feature").bind (fun f =>
                some (body ++ "\n\nResource URI: governance://" ++ pyStr f)))) := by
  refine ⟨?_, ?_, ?_, ?_⟩
  · intro hnone
    simp only [get_governance_resource]
    rw [List.find?_eq_none.mpr (fun x hx => by simp [hnone x hx])]
  · intro pre it post heq hit hpre
    subst heq
    simp only [get_governance_resource]
    rw [find?_first _ pre it post hpre hit]
  · intro _ pre it post heq hit hpre
    subst heq
    simp only [get_governance]
    rw [find?_first _ pre it post hpre hit]
  · intro pre it post heq hit hpre
    subst heq
    simp only [check_governance_zone]
    rw [find?_first _ pre it post hpre hit]
    rfl

/-- Witness for C10: a substring-only name is rejected by the resource but
accepted by the REST lookup and the tool, on a concrete record. -/
theorem C10_witness :
    get_governance_resource [govSub] "http-connector"
      = some "Governance info for 'http-connector' not found."
    ∧ get_governance [govSub] "http-connector" = Except.ok govSub
    ∧ check_governance_zone [govSub] "http-connector"
      = (format_governance_full govSub).bind (fun body =>
          (getOpt govSub "feature").bind (fun f =>
            some (body ++ "\n\nResource URI: governance://" ++ pyStr f))) :=
  ⟨(C10_resource_exact_only [govSub] "http-connector").1 (by decide),
   (C10_resource_exact_only [govSub] "http-connector").2.2.1 (by decide)
     [] govSub [] rfl (by decide) (by simp),
   (C10_resource_exact_only [govSub] "http-connector").2.2.2
     [] govSub [] rfl (by decide) (by simp)⟩

/-- C1 fails as stated: with eleven records matching a non-empty query, the
number of records surviving the filters and matching the query before any
10-cap is 11, yet `total` reports 10, because `search_items` has already
capped the list from which `total` is computed. -/
theorem C1_counterexample :
    ((bp_filtered elevenBP none none).filter
        (fun i => 0 < itemScore i (pyLower "error") bpFields)).length = 11
    ∧ (list_best_practices elevenBP (some "error") none none).total = 10 := by
  constructor <;> decide

/-- C1 (amended): on the best-practices, snippets and troubleshooting list
endpoints with a non-empty query, `results` is exactly the search output —
already capped at 10 — and `total` is the length of that capped output,
i.e. `min 10 (match count)` rather than the pre-cap match count. -/
theorem C1_amended_total_after_search_cap (data : List Item)
    (q category difficulty language : Option String) (hq : strTruthy q = true) :
    ((list_best_practices data q category difficulty).results
        = search_items (bp_filtered data category difficulty) (q.getD "") bpFields
      ∧ (list_best_practices data q category difficulty).total
        = (search_items (bp_filtered data category difficulty) (q.getD "") bpFields).length
      ∧ (list_best_practices data q category difficulty).total ≤ 10)
    ∧ ((list_snippets data q language).results
        = search_items (snippets_filtered data language) (q.getD "") snippetFieldsRest
      ∧ (list_snippets data q language).total
        = (search_items (snippets_filtered data language) (q.getD "") snippetFieldsRest).length
      ∧ (list_snippets data q language).total ≤ 10)
    ∧ ((list_troubleshooting data q category).results
        = search_items (ts_filtered data category) (q.getD "") tsFields
      ∧ (list_troubleshooting data q category).total
        = (search_items (ts_filtered data category) (q.getD "") tsFields).length
      ∧ (list_troubleshooting data q category).total ≤ 10) := by
  have gen : ∀ (filtered : List Item) (fields : List String),
      (if strTruthy q = true then search_items filtered (q.getD "") fields else filtered).take 10
        = search_items filtered (q.getD "") fields
      ∧ (if strTruthy q = true then search_items filtered (q.getD "") fields else filtered).length
        = (search_items filtered (q.getD "") fields).length
      ∧ (if strTruthy q = true then search_items filtered (q.getD "") fields else filtered).length
        ≤ 10 := by
    intro filtered fields
    rw [if_pos hq]
    exact ⟨List.take_of_length_le (search_items_length_le filtered (q.getD "") fields),
      rfl, search_items_length_le filtered (q.getD "") fields⟩
  exact ⟨gen (bp_filtered data category difficulty) bpFields,
    gen (snippets_filtered data language) snippetFieldsRest,
    gen (ts_filtered data category) tsFields⟩

/-- Witness for C1 at the eleven-record collection: the reported total is
the length of the capped search output. -/
theorem C1_witness :
    strTruthy (some "error") = true
    ∧ (list_best_practices elevenBP (some "error") none none).total
      = (search_items (bp_filtered elevenBP none none) "error" bpFields).length :=
  ⟨by decide,
   (C1_amended_total_after_search_cap elevenBP (some "error") none none none
      (by decide)).1.2.1⟩

/-- C3: each per-collection formatter returns a text block without raising
on every record of its documented shape (mandatory fields present, optional
fields absent or of their documented types — absence always allowed), and
on a record carrying only its mandatory fields every absent optional field
renders as its documented default: `N/A` for category and difficulty,
`unknown` for language and minimum zone, and the empty string for the
descriptive fields and the joined tags. -/
theorem C3_formatters_never_fail :
    (∀ item, BPWellFormed item = true → (format_best_practice_full item).isSome = true)
    ∧ (∀ item, SnippetWellFormed item = true → (format_snippet_full item).isSome = true)
    ∧ (∀ item, TSWellFormed item = true → (format_troubleshooting_full item).isSome = true)
    ∧ (∀ item, TipWellFormed item = true → (format_tip_full item).isSome = true)
    ∧ (∀ item, GovWellFormed item = true → (format_governance_full item).isSome = true)
    ∧ format_best_practice_full [("title", Value.str "T"), ("description", Value.str "D")]
      = some ("# T\n\n**Category**: N/A\n**Difficulty**: N/A\n\n**Description**: D"
          ++ "\n\n**Rationale**: \n\n**Good example**: \n**Bad example**: \n\n**Tags**: ")
    ∧ format_snippet_full [("title", Value.str "T")]
      = some ("# T\n\n**Language**: unknown\n**Use case**: \n\n```\n\n```"
          ++ "\n\n**Explanation**: \n\n**Tags**: ")
    ∧ format_troubleshooting_full [("title", Value.str "T")] = some "# T"
    ∧ format_tip_full [("title", Value.str "T")] = some "# T\n\n\n\n**Tags**: "
    ∧ format_governance_full [("feature", Value.str "f1")]
      = some "# f1\n\n**Minimum zone required**: unknown\n\n**Availability by zone**:" :=
  ⟨format_best_practice_full_isSome, format_snippet_full_isSome,
   format_troubleshooting_full_isSome, format_tip_full_isSome,
   format_governance_full_isSome, by decide, by decide, by decide, by decide, by decide⟩

/-- Witness for C3 on minimal concrete records. -/
theorem C3_witness :
    BPWellFormed [("title", Value.str "T"), ("description", Value.str "D")] = true
    ∧ (format_best_practice_full
        [("title", Value.str "T"), ("description", Value.str "D")]).isSome = true
    ∧ GovWellFormed [("feature", Value.str "f1")] = true
    ∧ (format_governance_full [("feature", Value.str "f1")]).isSome = true :=
  ⟨by decide, C3_formatters_never_fail.1 _ (by decide),
   by decide, C3_formatters_never_fail.2.2.2.2.1 _ (by decide)⟩

/-- C6: for a non-empty query, `search_items` lowercases the query, scores
each record through `itemScore` (+1 per queried string field containing the
query case-insensitively, +1 per containing string element of a queried
list field), discards score-0 records keeping the original order, sorts the
rest by score descending with a stable sort — the per-score slices of the
sorted list equal the corresponding slices of the input, so equal scores
keep their original relative order — and returns at most the first 10. -/
theorem C6_search_scoring_sort_cap (items : List Item) (query : String)
    (fields : List String) (hq : query.isEmpty = false) :
    search_items items query fields
      = ((List.insertionSort scoreGE
            (scored_results items (pyLower query) fields)).take 10).map Prod.snd
    ∧ scored_results items (pyLower query) fields
      = (items.filter (fun i => 0 < itemScore i (pyLower query) fields)).map
          (fun i => (itemScore i (pyLower query) fields, i))
    ∧ (List.insertionSort scoreGE
        (scored_results items (pyLower query) fields)).Sorted scoreGE
    ∧ (∀ s : Nat,
        (List.insertionSort scoreGE
            (scored_results items (pyLower query) fields)).filter (fun p => p.1 == s)
          = (scored_results items (pyLower query) fields).filter (fun p => p.1 == s))
    ∧ List.Perm
        (List.insertionSort scoreGE (scored_results items (pyLower query) fields))
        (scored_results items (pyLower query) fields)
    ∧ (search_items items query fields).length ≤ 10
    ∧ (∀ it ∈ search_items items query fields,
        it ∈ items ∧ 0 < itemScore it (pyLower query) fields) := by
  have hq2 : ¬(query.isEmpty = true) := by simp [hq]
  have hsearch : search_items items query fields
      = ((List.insertionSort scoreGE
            (scored_results items (pyLower query) fields)).take 10).map Prod.snd := by
    unfold search_items
    rw [if_neg hq2]
  refine ⟨hsearch, scored_results_eq items (pyLower query) fields,
    List.sorted_insertionSort scoreGE _,
    fun s => filter_insertionSort s _,
    List.perm_insertionSort scoreGE _,
    search_items_length_le items query fields, ?_⟩
  intro it hit
  rw [hsearch] at hit
  obtain ⟨p, hp, hpi⟩ := List.mem_map.mp hit
  have hp2 : p ∈ List.insertionSort scoreGE (scored_results items (pyLower query) fields) :=
    List.mem_of_mem_take hp
  have hp3 : p ∈ scored_results items (pyLower query) fields :=
    (List.perm_insertionSort scoreGE _).mem_iff.mp hp2
  obtain ⟨heq, hpos, hmem⟩ := mem_scored_results hp3
  exact ⟨hpi ▸ hmem, hpi ▸ (heq ▸ hpos)⟩

/-- Witness for C6 at the eleven-record collection and the query `error`. -/
theorem C6_witness :
    ("error" : String).isEmpty = false
    ∧ search_items elevenBP "error" bpFields
      = ((List.insertionSort scoreGE
            (scored_results elevenBP (pyLower "error") bpFields)).take 10).map Prod.snd :=
  ⟨by decide, (C6_search_scoring_sort_cap elevenBP "error" bpFields (by decide)).1⟩

end MCSBP
